import Mathlib

/-!
Verification of the qualisys/crazyflie-resources follow examples.

The definitions below are a shallow embedding of the Python sources:
python-examples/bam2021/follow.py (the multi-controller follow script),
python-examples/helpers.py and python/example-follow-body.py. Floating-point
coordinates are modelled as exact rationals; where IEEE special values
matter (the validity check of Pose.is_valid), coordinates are modelled by an
explicit value type FVal carrying NaN and the infinities.
-/

namespace CrazyflieResources

/-- Safety envelope: the six physical-space bounds of the settings block of
follow.py (lines 49-54). -/
structure SafetyEnvelope where
  x_min : ℚ
  x_max : ℚ
  y_min : ℚ
  y_max : ℚ
  z_min : ℚ
  z_max : ℚ
deriving DecidableEq

/-- Pose as used by the control loop of follow.py (class Pose, position plus
yaw; the roll, pitch and rotmatrix fields play no part in the claims and are
omitted). Coordinates are exact rationals. -/
structure Pose where
  x : ℚ
  y : ℚ
  z : ℚ
  yaw : ℚ
deriving DecidableEq

/-- x_min from follow.py line 49. -/
def x_min : ℚ := -1

/-- x_max from follow.py line 50. -/
def x_max : ℚ := 1

/-- y_min from follow.py line 51. -/
def y_min : ℚ := -2

/-- y_max from follow.py line 52. -/
def y_max : ℚ := 1

/-- z_min from follow.py line 53. -/
def z_min : ℚ := 0

/-- z_max from follow.py line 54. -/
def z_max : ℚ := 3/2

/-- safeZone_margin from follow.py line 55. -/
def safeZone_margin : ℚ := 2/10

/-- cf_trackingLoss_treshold from follow.py line 60 (sic: the source spells
it treshold). -/
def cf_trackingLoss_treshold : ℕ := 200

/-- The configured envelope of follow.py, assembled from the six bounds. -/
def envConfig : SafetyEnvelope := ⟨x_min, x_max, y_min, y_max, z_min, z_max⟩

/-- The sentinel vehicle pose cf_pose = Pose(0, 0, 0) of follow.py line 129,
in place until the first valid sample arrives. -/
def cf_pose_init : Pose := ⟨0, 0, 0, 0⟩

/-- Target composition from the main control loop of follow.py (lines
383-390): the selected controller pose shifted by the operator offset, with
yaw forced to 0. -/
def composeTarget (controller_pose : Pose)
    (controller_offset_x controller_offset_y controller_offset_z : ℚ) : Pose :=
  { x := controller_pose.x + controller_offset_x
    y := controller_pose.y + controller_offset_y
    z := controller_pose.z + controller_offset_z
    yaw := 0 }

/-- The per-axis clamp of follow.py lines 392-395:
target_pose.x = max(x_min, min(target_pose.x, x_max)) and likewise for y and
z; yaw is left alone. -/
def clampTarget (env : SafetyEnvelope) (p : Pose) : Pose :=
  { x := max env.x_min (min p.x env.x_max)
    y := max env.y_min (min p.y env.y_max)
    z := max env.z_min (min p.z env.z_max)
    yaw := p.yaw }

/-- The safe-zone check of follow.py lines 370-372: every axis strictly
between bound minus margin and bound plus margin. -/
def inSafeZone (env : SafetyEnvelope) (margin : ℚ) (p : Pose) : Bool :=
  (decide (env.x_min - margin < p.x) && decide (p.x < env.x_max + margin)) &&
  (decide (env.y_min - margin < p.y) && decide (p.y < env.y_max + margin)) &&
  (decide (env.z_min - margin < p.z) && decide (p.z < env.z_max + margin))

/-- The outcome of the two safety checks at the top of the control loop. -/
inductive Verdict where
  | Safe
  | OutOfBounds
  | TrackingLost
deriving DecidableEq

/-- The safety decision of the main loop of follow.py lines 369-378: first
the safe-zone check (break on leaving the zone), then the tracking-loss
check (break when the counter strictly exceeds the threshold), otherwise the
loop continues. -/
def safetyVerdict (env : SafetyEnvelope) (margin : ℚ) (p : Pose)
    (cf_trackingLoss threshold : ℕ) : Verdict :=
  if inSafeZone env margin p then
    if cf_trackingLoss > threshold then Verdict.TrackingLost else Verdict.Safe
  else Verdict.OutOfBounds

/-- The wording of the spec for the boundary rule, used to compare against
the code: some position axis lies strictly outside the closed widened
interval from bound minus margin to bound plus margin. -/
def strictlyOutsideWidened (env : SafetyEnvelope) (margin : ℚ) (p : Pose) : Bool :=
  (decide (p.x < env.x_min - margin) || decide (env.x_max + margin < p.x)) ||
  (decide (p.y < env.y_min - margin) || decide (env.y_max + margin < p.y)) ||
  (decide (p.z < env.z_min - margin) || decide (env.z_max + margin < p.z))

theorem inSafeZone_iff (env : SafetyEnvelope) (margin : ℚ) (p : Pose) :
    inSafeZone env margin p = true ↔
      (env.x_min - margin < p.x ∧ p.x < env.x_max + margin ∧
       env.y_min - margin < p.y ∧ p.y < env.y_max + margin ∧
       env.z_min - margin < p.z ∧ p.z < env.z_max + margin) := by
  simp [inSafeZone, and_assoc]

theorem safetyVerdict_oob_iff (env : SafetyEnvelope) (margin : ℚ) (p : Pose)
    (c t : ℕ) :
    safetyVerdict env margin p c t = Verdict.OutOfBounds ↔
      inSafeZone env margin p = false := by
  unfold safetyVerdict
  cases h : inSafeZone env margin p with
  | false => simp [h]
  | true => simp [h]; split <;> simp

/-- C1: every axis of the clamped target lies inside the envelope whenever
the envelope has min below max on each axis, however far outside the raw
target was; and the spec scenario: controller pose (0.5, 0.5, 0.5) with
offset (0, 0, 0.5) composes to (0.5, 0.5, 1.0), and with z bounds [0, 0.8]
the clamped z is 0.8. -/
theorem clamp_within_envelope (env : SafetyEnvelope) (p : Pose)
    (hx : env.x_min < env.x_max) (hy : env.y_min < env.y_max)
    (hz : env.z_min < env.z_max) :
    (env.x_min ≤ (clampTarget env p).x ∧ (clampTarget env p).x ≤ env.x_max) ∧
    (env.y_min ≤ (clampTarget env p).y ∧ (clampTarget env p).y ≤ env.y_max) ∧
    (env.z_min ≤ (clampTarget env p).z ∧ (clampTarget env p).z ≤ env.z_max) ∧
    composeTarget ⟨1/2, 1/2, 1/2, 0⟩ 0 0 (1/2) = ⟨1/2, 1/2, 1, 0⟩ ∧
    (clampTarget ⟨-1, 1, -2, 1, 0, 4/5⟩
      (composeTarget ⟨1/2, 1/2, 1/2, 0⟩ 0 0 (1/2))).z = 4/5 := by
  refine ⟨⟨le_max_left _ _, max_le hx.le (min_le_right _ _)⟩,
          ⟨le_max_left _ _, max_le hy.le (min_le_right _ _)⟩,
          ⟨le_max_left _ _, max_le hz.le (min_le_right _ _)⟩,
          by norm_num [composeTarget],
          by norm_num [clampTarget, composeTarget, max_def, min_def]⟩

/-- C1 witness: the clamp bounds at the configured envelope and a target far
outside it, together with the concrete scenario conjuncts. -/
theorem clamp_within_envelope_witness :
    (envConfig.x_min ≤ (clampTarget envConfig ⟨5, -7, 9, 0⟩).x ∧
      (clampTarget envConfig ⟨5, -7, 9, 0⟩).x ≤ envConfig.x_max) ∧
    (envConfig.y_min ≤ (clampTarget envConfig ⟨5, -7, 9, 0⟩).y ∧
      (clampTarget envConfig ⟨5, -7, 9, 0⟩).y ≤ envConfig.y_max) ∧
    (envConfig.z_min ≤ (clampTarget envConfig ⟨5, -7, 9, 0⟩).z ∧
      (clampTarget envConfig ⟨5, -7, 9, 0⟩).z ≤ envConfig.z_max) ∧
    composeTarget ⟨1/2, 1/2, 1/2, 0⟩ 0 0 (1/2) = ⟨1/2, 1/2, 1, 0⟩ ∧
    (clampTarget ⟨-1, 1, -2, 1, 0, 4/5⟩
      (composeTarget ⟨1/2, 1/2, 1/2, 0⟩ 0 0 (1/2))).z = 4/5 :=
  clamp_within_envelope envConfig ⟨5, -7, 9, 0⟩
    (by norm_num [envConfig, x_min, x_max])
    (by norm_num [envConfig, y_min, y_max])
    (by norm_num [envConfig, z_min, z_max])

/-- C2 counterexample: at a vehicle pose with x exactly on the widened
boundary x_max plus margin (1.2 for the configured envelope), the code
reports OutOfBounds although the pose is not strictly outside the closed
widened interval, so the stated iff fails. -/
theorem outOfBounds_boundary_cex :
    safetyVerdict envConfig safeZone_margin ⟨6/5, 0, 1/2, 0⟩ 0
      cf_trackingLoss_treshold = Verdict.OutOfBounds ∧
    strictlyOutsideWidened envConfig safeZone_margin ⟨6/5, 0, 1/2, 0⟩ = false := by
  constructor
  · norm_num [safetyVerdict, inSafeZone, envConfig, x_min, x_max, y_min, y_max,
      z_min, z_max, safeZone_margin]
  · norm_num [strictlyOutsideWidened, envConfig, x_min, x_max, y_min, y_max,
      z_min, z_max, safeZone_margin]

/-- C2 amended: the monitor reports OutOfBounds iff some axis lies outside
the open widened interval, boundary points included on the OutOfBounds side;
a pose strictly inside on all axes with the counter at most the threshold is
Safe; and the spec scenario: x = 1.25 is OutOfBounds, x = 1.1 is Safe. -/
theorem outOfBounds_iff_outside_open_interval (env : SafetyEnvelope)
    (margin : ℚ) (p : Pose) (c t : ℕ) :
    (safetyVerdict env margin p c t = Verdict.OutOfBounds ↔
      (p.x ≤ env.x_min - margin ∨ env.x_max + margin ≤ p.x ∨
       p.y ≤ env.y_min - margin ∨ env.y_max + margin ≤ p.y ∨
       p.z ≤ env.z_min - margin ∨ env.z_max + margin ≤ p.z)) ∧
    ((env.x_min - margin < p.x ∧ p.x < env.x_max + margin ∧
      env.y_min - margin < p.y ∧ p.y < env.y_max + margin ∧
      env.z_min - margin < p.z ∧ p.z < env.z_max + margin) → c ≤ t →
        safetyVerdict env margin p c t = Verdict.Safe) ∧
    safetyVerdict envConfig safeZone_margin ⟨5/4, 0, 1/2, 0⟩ 0
      cf_trackingLoss_treshold = Verdict.OutOfBounds ∧
    safetyVerdict envConfig safeZone_margin ⟨11/10, 0, 1/2, 0⟩ 0
      cf_trackingLoss_treshold = Verdict.Safe := by
  refine ⟨?_, ?_,
    by norm_num [safetyVerdict, inSafeZone, envConfig, x_min, x_max, y_min,
      y_max, z_min, z_max, safeZone_margin],
    by norm_num [safetyVerdict, inSafeZone, envConfig, x_min, x_max, y_min,
      y_max, z_min, z_max, safeZone_margin, cf_trackingLoss_treshold]⟩
  · rw [safetyVerdict_oob_iff]
    constructor
    · intro hf
      have hnot : ¬ (env.x_min - margin < p.x ∧ p.x < env.x_max + margin ∧
          env.y_min - margin < p.y ∧ p.y < env.y_max + margin ∧
          env.z_min - margin < p.z ∧ p.z < env.z_max + margin) := by
        rw [← inSafeZone_iff, hf]; simp
      simp only [not_and_or, not_lt] at hnot
      exact hnot
    · intro hd
      cases hb : inSafeZone env margin p with
      | false => rfl
      | true =>
        exfalso
        obtain ⟨h1, h2, h3, h4, h5, h6⟩ := (inSafeZone_iff env margin p).mp hb
        rcases hd with h | h | h | h | h | h <;> linarith
  · intro hin hct
    have hz : inSafeZone env margin p = true := (inSafeZone_iff env margin p).mpr hin
    unfold safetyVerdict
    rw [if_pos hz, if_neg (by omega)]

/-- C3: inside the safe zone the verdict is TrackingLost iff the counter
strictly exceeds the threshold, and a counter equal to the threshold is
still Safe; together with the spec scenario at threshold 200 with counters
201 and 200. -/
theorem trackingLost_iff_threshold_exceeded (env : SafetyEnvelope)
    (margin : ℚ) (p : Pose) (c t : ℕ)
    (h : inSafeZone env margin p = true) :
    (safetyVerdict env margin p c t = Verdict.TrackingLost ↔ t < c) ∧
    (c = t → safetyVerdict env margin p c t = Verdict.Safe) ∧
    safetyVerdict envConfig safeZone_margin cf_pose_init 201
      cf_trackingLoss_treshold = Verdict.TrackingLost ∧
    safetyVerdict envConfig safeZone_margin cf_pose_init 200
      cf_trackingLoss_treshold = Verdict.Safe := by
  refine ⟨?_, ?_,
    by norm_num [safetyVerdict, inSafeZone, envConfig, x_min, x_max, y_min,
      y_max, z_min, z_max, safeZone_margin, cf_pose_init, cf_trackingLoss_treshold],
    by norm_num [safetyVerdict, inSafeZone, envConfig, x_min, x_max, y_min,
      y_max, z_min, z_max, safeZone_margin, cf_pose_init, cf_trackingLoss_treshold]⟩
  · unfold safetyVerdict
    rw [if_pos h]
    constructor
    · intro he
      by_contra hlt
      rw [if_neg (by omega)] at he
      exact absurd he (by simp)
    · intro hlt
      rw [if_pos (by omega)]
  · intro hev
    unfold safetyVerdict
    rw [if_pos h, if_neg (by omega)]

/-- C3 witness: the theorem instantiated at the configured envelope, the
sentinel pose and counter 201 against threshold 200. -/
theorem trackingLost_iff_threshold_exceeded_witness :
    (safetyVerdict envConfig safeZone_margin cf_pose_init 201
        cf_trackingLoss_treshold = Verdict.TrackingLost ↔
      cf_trackingLoss_treshold < 201) ∧
    (201 = cf_trackingLoss_treshold →
      safetyVerdict envConfig safeZone_margin cf_pose_init 201
        cf_trackingLoss_treshold = Verdict.Safe) ∧
    safetyVerdict envConfig safeZone_margin cf_pose_init 201
      cf_trackingLoss_treshold = Verdict.TrackingLost ∧
    safetyVerdict envConfig safeZone_margin cf_pose_init 200
      cf_trackingLoss_treshold = Verdict.Safe :=
  trackingLost_iff_threshold_exceeded envConfig safeZone_margin cf_pose_init
    201 cf_trackingLoss_treshold
    (by norm_num [inSafeZone, envConfig, x_min, x_max, y_min, y_max, z_min,
      z_max, safeZone_margin, cf_pose_init])

/-- A coordinate as delivered by the tracking feed: a finite value, an
infinity, or NaN. The Python floats of follow.py are modelled with the IEEE
special values made explicit, since the validity check hinges on them. -/
inductive FVal where
  | fin (q : ℚ)
  | posInf
  | negInf
  | nan
deriving DecidableEq

/-- The Python comparison v == v on a float: false exactly for NaN (the
infinities compare equal to themselves). -/
def FVal.selfEq : FVal → Bool
  | FVal.nan => false
  | _ => true

/-- A coordinate is finite when it is neither an infinity nor NaN. -/
def FVal.isFinite : FVal → Bool
  | FVal.fin _ => true
  | _ => false

/-- Pose as handled by the ingestion path QtmWrapper._on_packet of follow.py:
the three position coordinates, with IEEE special values explicit. -/
structure FPose where
  x : FVal
  y : FVal
  z : FVal
deriving DecidableEq

/-- Pose.is_valid from follow.py lines 114-116:
self.x == self.x and self.y == self.y and self.z == self.z. -/
def FPose.is_valid (p : FPose) : Bool :=
  p.x.selfEq && p.y.selfEq && p.z.selfEq

/-- The wording of the spec for validity, used to compare against the code:
every coordinate is finite. -/
def FPose.allFinite (p : FPose) : Bool :=
  p.x.isFinite && p.y.isFinite && p.z.isFinite

/-- The sentinel pose at the origin, entry of the initial globals of
follow.py lines 129-130. -/
def fposeZero : FPose := ⟨FVal.fin 0, FVal.fin 0, FVal.fin 0⟩

/-- The mutable globals of follow.py touched by QtmWrapper._on_packet: the
stored vehicle pose, the consecutive-invalid counter and the stored
controller poses (lines 127-131). -/
structure IngestState where
  cf_pose : FPose
  cf_trackingLoss : ℕ
  controller_poses : List FPose
deriving DecidableEq

/-- Crazyflie-body part of QtmWrapper._on_packet (follow.py lines 209-222):
if the sample is valid, store it, and reset the counter to 0 only inside the
guard that a pose-forwarding callback on_cf_pose is registered; if invalid,
increment the counter. The flag on_cf_pose tells whether the callback is
registered. -/
def onPacketCf (on_cf_pose : Bool) (sample : FPose) (s : IngestState) :
    IngestState :=
  if sample.is_valid then
    if on_cf_pose then { s with cf_pose := sample, cf_trackingLoss := 0 }
    else { s with cf_pose := sample }
  else { s with cf_trackingLoss := s.cf_trackingLoss + 1 }

/-- Controller part of QtmWrapper._on_packet (follow.py lines 226-230):
each stored controller pose is replaced by its sample only when the sample
is valid. The source keeps no per-controller invalid counter. -/
def updateControllers : List FPose → List FPose → List FPose
  | sample :: samples, old :: olds =>
      (if sample.is_valid then sample else old) :: updateControllers samples olds
  | _, olds => olds

/-- QtmWrapper._on_packet for one packet carrying a vehicle sample and one
sample per controller body: the vehicle update followed by the controller
updates. -/
def onPacket (on_cf_pose : Bool) (cf_sample : FPose)
    (controller_samples : List FPose) (s : IngestState) : IngestState :=
  let s1 := onPacketCf on_cf_pose cf_sample s
  { s1 with
    controller_poses := updateControllers controller_samples s1.controller_poses }

theorem onPacketCf_controller_poses (on_cf_pose : Bool) (sample : FPose)
    (s : IngestState) :
    (onPacketCf on_cf_pose sample s).controller_poses = s.controller_poses := by
  unfold onPacketCf
  split
  · split <;> rfl
  · rfl

theorem updateControllers_getD (samples : List FPose) (olds : List FPose)
    (i : ℕ) (h : (samples.getD i fposeZero).is_valid = false) :
    (updateControllers samples olds).getD i fposeZero = olds.getD i fposeZero := by
  induction samples generalizing olds i with
  | nil => rfl
  | cons a as ih =>
    cases olds with
    | nil => rfl
    | cons b bs =>
      cases i with
      | zero =>
        simp only [List.getD_cons_zero] at h
        simp [updateControllers, h]
      | succ n =>
        simp only [List.getD_cons_succ] at h
        simpa [updateControllers] using ih bs n h

/-- C4 counterexample: the sample with x infinite has a non-finite
coordinate, yet the ingestion update stores it as the vehicle pose and
resets the counter from 5 to 0 instead of leaving the pose alone and
incrementing, because is_valid only detects NaN. -/
theorem invalid_sample_infinite_cex :
    FPose.allFinite ⟨FVal.posInf, FVal.fin 0, FVal.fin 0⟩ = false ∧
    (onPacket true ⟨FVal.posInf, FVal.fin 0, FVal.fin 0⟩ [fposeZero]
        ⟨fposeZero, 5, [fposeZero]⟩).cf_pose
      = ⟨FVal.posInf, FVal.fin 0, FVal.fin 0⟩ ∧
    (onPacket true ⟨FVal.posInf, FVal.fin 0, FVal.fin 0⟩ [fposeZero]
        ⟨fposeZero, 5, [fposeZero]⟩).cf_trackingLoss = 0 := by
  refine ⟨rfl, ?_, ?_⟩ <;> rfl

/-- C4 amended: for a sample that is invalid per the code (some coordinate
NaN; infinities pass as valid), the update leaves the stored vehicle pose
unchanged and increments the vehicle counter by exactly 1, whether or not
the callback is registered; an invalid controller sample leaves that
controller entry unchanged (the source keeps no per-controller counter). -/
theorem invalid_sample_preserves_state (on_cf_pose : Bool) (sample : FPose)
    (ctrl : List FPose) (s : IngestState) (h : sample.is_valid = false) :
    (onPacket on_cf_pose sample ctrl s).cf_pose = s.cf_pose ∧
    (onPacket on_cf_pose sample ctrl s).cf_trackingLoss = s.cf_trackingLoss + 1 ∧
    ∀ i : ℕ, (ctrl.getD i fposeZero).is_valid = false →
      (onPacket on_cf_pose sample ctrl s).controller_poses.getD i fposeZero
        = s.controller_poses.getD i fposeZero := by
  refine ⟨?_, ?_, ?_⟩
  · simp [onPacket, onPacketCf, h]
  · simp [onPacket, onPacketCf, h]
  · intro i hi
    have hc : (onPacket on_cf_pose sample ctrl s).controller_poses
        = updateControllers ctrl s.controller_poses := by
      simp [onPacket, onPacketCf_controller_poses]
    rw [hc]
    exact updateControllers_getD ctrl s.controller_poses i hi

/-- C4 witness: the amended statement at a NaN sample against a state with
counter 3. -/
theorem invalid_sample_preserves_state_witness :
    (onPacket true ⟨FVal.nan, FVal.fin 0, FVal.fin 0⟩
        [⟨FVal.nan, FVal.fin 0, FVal.fin 0⟩] ⟨fposeZero, 3, [fposeZero]⟩).cf_pose
      = (⟨fposeZero, 3, [fposeZero]⟩ : IngestState).cf_pose ∧
    (onPacket true ⟨FVal.nan, FVal.fin 0, FVal.fin 0⟩
        [⟨FVal.nan, FVal.fin 0, FVal.fin 0⟩]
        ⟨fposeZero, 3, [fposeZero]⟩).cf_trackingLoss
      = (⟨fposeZero, 3, [fposeZero]⟩ : IngestState).cf_trackingLoss + 1 ∧
    ∀ i : ℕ,
      (([⟨FVal.nan, FVal.fin 0, FVal.fin 0⟩] :
          List FPose).getD i fposeZero).is_valid = false →
      (onPacket true ⟨FVal.nan, FVal.fin 0, FVal.fin 0⟩
          [⟨FVal.nan, FVal.fin 0, FVal.fin 0⟩]
          ⟨fposeZero, 3, [fposeZero]⟩).controller_poses.getD i fposeZero
        = (⟨fposeZero, 3, [fposeZero]⟩ : IngestState).controller_poses.getD i
            fposeZero :=
  invalid_sample_preserves_state true ⟨FVal.nan, FVal.fin 0, FVal.fin 0⟩
    [⟨FVal.nan, FVal.fin 0, FVal.fin 0⟩] ⟨fposeZero, 3, [fposeZero]⟩ rfl

/-- C5 counterexample: with no pose-forwarding callback registered, a valid
vehicle sample is stored but the counter stays at 5 instead of resetting to
0, because the reset sits inside the callback guard; so the reset is not
unconditional on the callback state. -/
theorem valid_sample_no_callback_cex :
    (onPacket false ⟨FVal.fin 1, FVal.fin 2, FVal.fin 3⟩ [fposeZero]
        ⟨fposeZero, 5, [fposeZero]⟩).cf_trackingLoss = 5 ∧
    (onPacket false ⟨FVal.fin 1, FVal.fin 2, FVal.fin 3⟩ [fposeZero]
        ⟨fposeZero, 5, [fposeZero]⟩).cf_pose
      = ⟨FVal.fin 1, FVal.fin 2, FVal.fin 3⟩ := by
  refine ⟨?_, ?_⟩ <;> rfl

/-- C5 amended: a valid vehicle sample is always stored as the last-known
pose; the counter resets to 0 when the pose-forwarding callback is
registered, and is left untouched when it is not. -/
theorem valid_sample_updates_state (sample : FPose) (ctrl : List FPose)
    (s : IngestState) (h : sample.is_valid = true) :
    ((onPacket true sample ctrl s).cf_pose = sample ∧
     (onPacket true sample ctrl s).cf_trackingLoss = 0) ∧
    ((onPacket false sample ctrl s).cf_pose = sample ∧
     (onPacket false sample ctrl s).cf_trackingLoss = s.cf_trackingLoss) := by
  refine ⟨⟨?_, ?_⟩, ⟨?_, ?_⟩⟩ <;> simp [onPacket, onPacketCf, h]

/-- C5 witness: the amended statement at a concrete valid sample and a state
with counter 7. -/
theorem valid_sample_updates_state_witness :
    ((onPacket true ⟨FVal.fin 1, FVal.fin 2, FVal.fin 3⟩ [fposeZero]
        ⟨fposeZero, 7, [fposeZero]⟩).cf_pose
        = ⟨FVal.fin 1, FVal.fin 2, FVal.fin 3⟩ ∧
      (onPacket true ⟨FVal.fin 1, FVal.fin 2, FVal.fin 3⟩ [fposeZero]
        ⟨fposeZero, 7, [fposeZero]⟩).cf_trackingLoss = 0) ∧
    ((onPacket false ⟨FVal.fin 1, FVal.fin 2, FVal.fin 3⟩ [fposeZero]
        ⟨fposeZero, 7, [fposeZero]⟩).cf_pose
        = ⟨FVal.fin 1, FVal.fin 2, FVal.fin 3⟩ ∧
      (onPacket false ⟨FVal.fin 1, FVal.fin 2, FVal.fin 3⟩ [fposeZero]
        ⟨fposeZero, 7, [fposeZero]⟩).cf_trackingLoss
        = (⟨fposeZero, 7, [fposeZero]⟩ : IngestState).cf_trackingLoss) :=
  valid_sample_updates_state ⟨FVal.fin 1, FVal.fin 2, FVal.fin 3⟩ [fposeZero]
    ⟨fposeZero, 7, [fposeZero]⟩ rfl

/-- C8 counterexample: a pose with an infinite x coordinate is classified
valid by the code although that coordinate is not finite; the validity flag
is a NaN check only. -/
theorem infinite_coordinate_valid_cex :
    FPose.is_valid ⟨FVal.posInf, FVal.fin 0, FVal.fin 0⟩ = true ∧
    FPose.allFinite ⟨FVal.posInf, FVal.fin 0, FVal.fin 0⟩ = false := by
  refine ⟨rfl, rfl⟩

/-- C8 amended: the validity flag of a constructed pose is true iff no
position coordinate is NaN; infinite coordinates are classified valid. -/
theorem is_valid_iff_no_nan (p : FPose) :
    p.is_valid = true ↔
      (p.x ≠ FVal.nan ∧ p.y ≠ FVal.nan ∧ p.z ≠ FVal.nan) := by
  obtain ⟨x, y, z⟩ := p
  cases x <;> cases y <;> cases z <;>
    simp [FPose.is_valid, FVal.selfEq]

/-- Commands the scripts send to the vehicle link: position setpoints from
the main loop, hover setpoints from the landing loop, and the stop setpoint
that example-follow-body.py sends on tracking loss. -/
inductive Command where
  | positionSetpoint (x y z yaw : ℚ)
  | hoverSetpoint (vx vy yawrate z : ℚ)
  | stopSetpoint
deriving DecidableEq

/-- The values of range(5, 0, -1) iterated by the landing loop of follow.py
line 406. -/
def landingSteps : List ℕ := [5, 4, 3, 2, 1]

/-- Everything the landing code of follow.py lines 404-408 emits after the
main loop exits: send_hover_setpoint(0, 0, 0, float(z) / 10.0) for z in
range(5, 0, -1). No stop command follows, and the block is ordinary
straight-line code after the loop, not scoped cleanup. -/
def landingCommands : List Command :=
  landingSteps.map (fun z => Command.hoverSetpoint 0 0 0 ((z : ℚ) / 10))

/-- Whether a command is the stop setpoint. -/
def Command.isStop : Command → Bool
  | Command.stopSetpoint => true
  | _ => false

/-- The altitude of a hover setpoint. -/
def Command.hoverAlt : Command → Option ℚ
  | Command.hoverSetpoint _ _ _ z => some z
  | _ => none

/-- C6 counterexample: the emitted landing sequence of follow.py contains no
stop command at all (its last element included), so it does not culminate in
a stop command. -/
theorem landing_no_stop_cex :
    landingCommands.all (fun c => !c.isStop) = true ∧
    landingCommands.getLast? = some (Command.hoverSetpoint 0 0 0 (1/10)) := by
  constructor
  · rfl
  · norm_num [landingCommands, landingSteps]

/-- C6 amended: the landing code emits exactly five hover setpoints with
strictly decreasing altitudes 0.5, 0.4, 0.3, 0.2, 0.1 and no stop command;
it runs after the normal loop exits (safety trip or operator stop) but is
not scoped cleanup, so an exceptional exit skips it. -/
theorem landing_sequence_descending :
    landingCommands.map Command.hoverAlt
      = [some (5/10), some (4/10), some (3/10), some (2/10), some (1/10)] ∧
    List.Chain' (fun a b => b < a) (landingCommands.filterMap Command.hoverAlt) ∧
    landingCommands.length = 5 ∧
    landingCommands.all (fun c => !c.isStop) = true := by
  refine ⟨?_, ?_, rfl, rfl⟩
  · norm_num [landingCommands, landingSteps, Command.hoverAlt]
  · norm_num [landingCommands, landingSteps, Command.hoverAlt, List.filterMap]

/-- The configured controller body names of follow.py line 46. -/
def controller_body_names : List String := [ "car" ]

/-- The keyboard-mutable globals of follow.py (lines 127-131 and the globals
of on_press): the fly flag, the three offsets and the selected controller
index. -/
structure KeyState where
  fly : Bool
  controller_offset_x : ℚ
  controller_offset_y : ℚ
  controller_offset_z : ℚ
  controller_select : ℕ
deriving DecidableEq

/-- A key event: escape, a character key, or another special key. -/
inductive Key where
  | esc
  | ch (c : Char)
  | otherSpecial
deriving DecidableEq

/-- The initial keyboard-mutable globals: fly true, offsets (0, 0, 0.5) from
lines 56-58, selected controller 0 from line 131. -/
def keyStateInit : KeyState := ⟨true, 0, 0, 1/2, 0⟩

/-- on_press from follow.py lines 311-337: escape clears fly; for character
keys every if is tested in sequence; the keys 1, 2 and 3 set the selected
index to 0, 1 and 2 with no range check against the configured controller
count. -/
def on_press (k : Key) (s : KeyState) : KeyState :=
  match k with
  | Key.esc => { s with fly := false }
  | Key.otherSpecial => s
  | Key.ch c =>
    let s := if c = 'a' then
      { s with controller_offset_x := s.controller_offset_x - 1/10 } else s
    let s := if c = 'd' then
      { s with controller_offset_x := s.controller_offset_x + 1/10 } else s
    let s := if c = 's' then
      { s with controller_offset_y := s.controller_offset_y - 1/10 } else s
    let s := if c = 'w' then
      { s with controller_offset_y := s.controller_offset_y + 1/10 } else s
    let s := if c = 'z' then
      { s with controller_offset_z := s.controller_offset_z - 1/10 } else s
    let s := if c = 'x' then
      { s with controller_offset_z := s.controller_offset_z + 1/10 } else s
    let s := if c = '1' then { s with controller_select := 0 } else s
    let s := if c = '2' then { s with controller_select := 1 } else s
    let s := if c = '3' then { s with controller_select := 2 } else s
    s

/-- C7 counterexample: with the single configured controller body, the key 2
event is not ignored: it sets the selected index to 1, and the name lookup
the handler performs next (line 335) finds no entry at that index. -/
theorem select_target_out_of_range_cex :
    (on_press (Key.ch '2') keyStateInit).controller_select = 1 ∧
    controller_body_names.get?
      (on_press (Key.ch '2') keyStateInit).controller_select = none := by
  refine ⟨rfl, rfl⟩

/-- C7 amended: from any keyboard state, the selection keys 1, 2 and 3 set
the target index to 0, 1 and 2 unconditionally, with no check against the
configured controller count (here 1), so an out-of-range selection is
stored rather than ignored and the subsequent indexing has no entry. -/
theorem select_target_unconditional (s : KeyState) :
    (on_press (Key.ch '1') s).controller_select = 0 ∧
    (on_press (Key.ch '2') s).controller_select = 1 ∧
    (on_press (Key.ch '3') s).controller_select = 2 ∧
    controller_body_names.length = 1 ∧
    controller_body_names.get? 1 = none ∧
    controller_body_names.get? 2 = none := by
  refine ⟨rfl, rfl, rfl, rfl, rfl, rfl⟩

/-- C9 counterexample: for an envelope whose widened box excludes the
origin (x from 1 to 2, margin 0.2, min below max on every axis), the
sentinel pose stored before any valid vehicle sample already trips
OutOfBounds: the out-of-bounds rule can fire before the first sample. -/
theorem sentinel_pose_oob_cex :
    safetyVerdict ⟨1, 2, -2, 1, 0, 3/2⟩ safeZone_margin cf_pose_init 0
      cf_trackingLoss_treshold = Verdict.OutOfBounds ∧
    ((1 : ℚ) < 2 ∧ (-2 : ℚ) < 1 ∧ (0 : ℚ) < 3/2) := by
  constructor
  · norm_num [safetyVerdict, inSafeZone, safeZone_margin, cf_pose_init]
  · norm_num

/-- C9 amended: under the envelope and margin configured in follow.py, whose
widened box contains the origin, the sentinel pose never yields OutOfBounds,
whatever the counter and threshold; in the initial state the verdict is
Safe. The guarantee is a consequence of the configured constants, not of any
first-sample guard, and fails for envelopes that exclude the origin. -/
theorem sentinel_pose_never_oob_configured (c t : ℕ) :
    safetyVerdict envConfig safeZone_margin cf_pose_init c t
      ≠ Verdict.OutOfBounds ∧
    safetyVerdict envConfig safeZone_margin cf_pose_init 0
      cf_trackingLoss_treshold = Verdict.Safe := by
  have hz : inSafeZone envConfig safeZone_margin cf_pose_init = true := by
    norm_num [inSafeZone, envConfig, x_min, x_max, y_min, y_max, z_min, z_max,
      safeZone_margin, cf_pose_init]
  constructor
  · unfold safetyVerdict
    rw [if_pos hz]
    split <;> simp
  · unfold safetyVerdict
    rw [if_pos hz, if_neg (by omega)]

/-- Python int() on a rational: truncation toward zero, the conversion
applied by helpers.py to the thrust component. -/
def pyInt (q : ℚ) : ℤ := if 0 ≤ q then ⌊q⌋ else ⌈q⌉

/-- convert_coords_to_setpoint from helpers.py lines 14-17: the (X, Y, Z,
Yaw) tuple becomes (coords[1], coords[0], coords[3], int(coords[2] * 1000)). -/
def convert_coords_to_setpoint (coords : ℚ × ℚ × ℚ × ℚ) : ℚ × ℚ × ℚ × ℤ :=
  (coords.2.1, coords.1, coords.2.2.2, pyInt (coords.2.2.1 * 1000))

/-- C10: the conversion swaps the x and y axes, moves yaw to the third slot,
and the thrust component is the integer truncation of 1000 times z toward
zero: it never exceeds 1000 z in absolute value, misses it by less than one,
and carries the sign of z; with the concrete checks int(1234.5) = 1234 and
int(-1.5) = -1. -/
theorem convert_coords_to_setpoint_characterization (x y z yaw : ℚ) :
    convert_coords_to_setpoint (x, y, z, yaw)
      = (y, x, yaw, pyInt (z * 1000)) ∧
    |((pyInt (z * 1000) : ℚ))| ≤ |z * 1000| ∧
    |z * 1000| < |((pyInt (z * 1000) : ℚ))| + 1 ∧
    (0 ≤ z → 0 ≤ pyInt (z * 1000)) ∧
    (z ≤ 0 → pyInt (z * 1000) ≤ 0) ∧
    convert_coords_to_setpoint (1/2, -3/10, 12345/10000, 9/10)
      = (-3/10, 1/2, 9/10, 1234) ∧
    pyInt (-3/2) = -1 := by
  have habs : |((pyInt (z * 1000) : ℚ))| ≤ |z * 1000| ∧
      |z * 1000| < |((pyInt (z * 1000) : ℚ))| + 1 := by
    unfold pyInt
    split
    · next h0 =>
      have hfl : (0 : ℤ) ≤ ⌊z * 1000⌋ := Int.floor_nonneg.mpr h0
      have h1 : ((⌊z * 1000⌋ : ℚ)) ≤ z * 1000 := Int.floor_le _
      have h2 : z * 1000 < (⌊z * 1000⌋ : ℚ) + 1 := Int.lt_floor_add_one _
      have h3 : (0 : ℚ) ≤ ((⌊z * 1000⌋ : ℚ)) := by exact_mod_cast hfl
      rw [abs_of_nonneg h0, abs_of_nonneg h3]
      exact ⟨h1, h2⟩
    · next h0 =>
      have hneg : z * 1000 < 0 := lt_of_not_le h0
      have hcl : ⌈z * 1000⌉ ≤ 0 := Int.ceil_le.mpr (by exact_mod_cast hneg.le)
      have h1 : z * 1000 ≤ ((⌈z * 1000⌉ : ℚ)) := Int.le_ceil _
      have h2 : ((⌈z * 1000⌉ : ℚ)) < z * 1000 + 1 := by
        have := Int.ceil_lt_add_one (z * 1000)
        exact_mod_cast this
      have h3 : ((⌈z * 1000⌉ : ℚ)) ≤ 0 := by exact_mod_cast hcl
      rw [abs_of_nonpos hneg.le, abs_of_nonpos h3]
      constructor <;> linarith
  refine ⟨rfl, habs.1, habs.2, ?_, ?_, ?_, ?_⟩
  · intro hz0
    unfold pyInt
    rw [if_pos (by positivity)]
    exact Int.floor_nonneg.mpr (by positivity)
  · intro hz0
    unfold pyInt
    split
    · next h0 =>
      have : z * 1000 = 0 := le_antisymm (by nlinarith) h0
      simp [this]
    · next h0 =>
      exact Int.ceil_le.mpr (by push_cast; exact (lt_of_not_le h0).le)
  · unfold convert_coords_to_setpoint pyInt
    norm_num [Int.floor_eq_iff]
  · unfold pyInt
    rw [if_neg (by norm_num)]
    rw [show ((-3 : ℚ)/2) = (-(3/2) : ℚ) by norm_num]
    rw [Int.ceil_neg]
    norm_num [Int.floor_eq_iff]

end CrazyflieResources
